import Mathlib

set_option maxRecDepth 4000

/-!
Verification of the prompt-construction core of the telemarketing assistant
(`telemarketing_assistant/scripts/helpers.py`).

The embedding below translates the three functions of `helpers.py` —
`build_global_context`, `_build_feature_points` and `build_customer_prompt` —
into executable Lean definitions.  Text is modelled as `List Char`, numeric
impacts and probabilities as rationals, pandas rows and Python dicts as
association lists.  The pandas pipeline of `build_global_context` is modelled
from the library's documented semantics:

* `df["drivers"].explode().dropna()` flattens the per-customer driver lists in
  row order; empty lists explode to NaN and are dropped, so the flattened
  collection is the concatenation (`List.join`) of the per-customer lists.
* `.groupby("feature")` uses the default `sort=True`, so group keys come out
  in ascending code-point order of the feature identifier.
* `Series.sort_values(ascending=False)` goes through pandas `nargsort`,
  which (since pandas 1.2, GH 35922) reverses the input before the ascending
  argsort and reverses the result after, i.e. it is the standard *stable*
  descending sort; numpy's quicksort degenerates to a stable insertion sort
  on the small group arrays relevant here.  Ties in the grouped means
  therefore keep the ascending (alphabetical) groupby key order.
* When the flattened collection is empty, `Series.apply(pd.Series)` returns an
  empty Series carrying no `feature` label, and `.groupby("feature")` raises
  `KeyError: 'feature'`; this is modelled with `Except.error`.
-/

/-- Strings are modelled as lists of characters so that Mathlib's list API
(infix relations, permutations, sorting) applies directly. -/
abbrev Str := List Char

/-- One SHAP driver record `{'feature', 'value', 'impact'}`.  The `value` field
is kept in its rendered (`str()`) form because the code only ever interpolates
it into text; `impact` is numeric. -/
structure Driver where
  feature : Str
  value : Str
  impact : ℚ
  deriving DecidableEq

/-- Code-point lexicographic comparison of strings: the order pandas uses when
sorting string group keys. -/
def strLeB : Str → Str → Bool
  | [], _ => true
  | _ :: _, [] => false
  | a :: as, b :: bs =>
      if a.toNat < b.toNat then true
      else if b.toNat < a.toNat then false
      else strLeB as bs

/-- Propositional form of `strLeB`. -/
def strLe (a b : Str) : Prop := strLeB a b = true

instance : DecidableRel strLe :=
  fun a b => inferInstanceAs (Decidable (strLeB a b = true))

/-- Decimal digit characters of a positive number, most significant first;
`fuel` bounds the recursion depth (any `fuel ≥ n` renders `n` fully). -/
def natStrAux : ℕ → ℕ → Str
  | 0, _ => []
  | _ + 1, 0 => []
  | fuel + 1, n + 1 => natStrAux fuel ((n + 1) / 10) ++ [Char.ofNat (48 + (n + 1) % 10)]

/-- Decimal digit characters of a natural number, most significant first. -/
def natStr (n : ℕ) : Str :=
  if n = 0 then ['0'] else natStrAux n n

/-- Left-pad to two digits (for values below 100). -/
def pad2 (n : ℕ) : Str := if n < 10 then '0' :: natStr n else natStr n

/-- Left-pad to three digits (for values below 1000). -/
def pad3 (n : ℕ) : Str :=
  if n < 10 then '0' :: '0' :: natStr n
  else if n < 100 then '0' :: natStr n
  else natStr n

/-- Round to the nearest integer, ties to even: the rounding used by Python
fixed-point string formatting. -/
def rhe (q : ℚ) : ℤ :=
  let f : ℤ := ⌊q⌋
  if q - f < 1/2 then f
  else if (1/2 : ℚ) < q - f then f + 1
  else if f % 2 = 0 then f else f + 1

/-- Python `format(q, ".2%")`: multiply by 100, round to two decimals, append
a percent sign; negative values carry a leading minus. -/
def pct2 (q : ℚ) : Str :=
  let m : ℕ := (rhe (|q| * 10000)).toNat
  let s : Str := natStr (m / 100) ++ '.' :: pad2 (m % 100) ++ ['%']
  if q < 0 then '-' :: s else s

/-- Python `f"{x:+.3f}"`: always-signed fixed point with three decimals. -/
def fmt3signed (q : ℚ) : Str :=
  let m : ℕ := (rhe (|q| * 1000)).toNat
  (if q < 0 then '-' else '+') :: (natStr (m / 1000) ++ '.' :: pad3 (m % 1000))

/-- Python `"\n".join`. -/
def joinNL : List Str → Str
  | [] => []
  | [s] => s
  | s :: rest => s ++ '\n' :: joinNL rest

/-- Lookup in a Python dict modelled as an association list (dict keys are
unique, so first match is the dict entry). -/
def lookupPB : List (Str × Str) → Str → Option Str
  | [], _ => none
  | (k, v) :: rest, f => if k = f then some v else lookupPB rest f

/-- Mean of the absolute impacts of one feature group: models
`drivers_all.groupby("feature")["impact"].apply(lambda s: s.abs().mean())`
evaluated at one group key (helpers.py lines 21-24). -/
def meanAbsImpact (flat : List Driver) (f : Str) : ℚ :=
  let xs := (flat.filter (fun d => d.feature = f)).map (fun d => |d.impact|)
  xs.sum / xs.length

/-- Distinct feature identifiers of the flattened batch in ascending
code-point order: the index of the pandas groupby result (default
`sort=True`). -/
def groupKeys (flat : List Driver) : List Str :=
  List.insertionSort strLe (flat.map Driver.feature).dedup

/-- Sorting and truncation of helpers.py lines 21-29:
`.sort_values(ascending=False).head(top_n)` on the grouped means.  Pandas
`nargsort` reverses the input before the stable ascending argsort and
reverses the result after, which is exactly a *stable descending* sort of
the alphabetically ordered keys by mean; a stable insertion sort with the
flipped comparator realizes the same order, ties keeping the ascending
groupby key order. -/
def rankCore (flat : List Driver) (top_n : ℕ) : List Str :=
  (List.insertionSort
      (fun a b => meanAbsImpact flat b ≤ meanAbsImpact flat a)
      (groupKeys flat)).take top_n

/-- The full ranking step of `build_global_context` (helpers.py lines 13-29).
On an empty flattened collection the pandas pipeline raises
`KeyError: 'feature'` (the intermediate produced by `.apply(pd.Series)` is
empty and has no `feature` label), modelled as `Except.error`. -/
def rank (batch : List (List Driver)) (top_n : ℕ) : Except Str (List Str) :=
  if batch.flatten.isEmpty then Except.error ("KeyError: feature").toList
  else Except.ok (rankCore batch.flatten top_n)

/-- Default description used when a feature has no playbook entry
(helpers.py line 37). -/
def noDescription : Str := ("No description available.").toList

/-- Description chosen in `build_global_context` lines 33-38:
`feature_playbook[feat]` if `feature_playbook and feat in feature_playbook`,
else the default.  (A `None` or empty dict is falsy, and membership in an
empty dict fails, so both cases reduce to: use the entry iff the lookup
succeeds.) -/
def descFor (playbook : Option (List (Str × Str))) (feat : Str) : Str :=
  match playbook with
  | some pb =>
      match lookupPB pb feat with
      | some d => d
      | none => noDescription
  | none => noDescription

/-- `features_block` (helpers.py lines 32-40): one `- feat: desc` line per
ranked feature, joined by newlines. -/
def featuresBlock (top_features : List Str) (playbook : Option (List (Str × Str))) : Str :=
  joinNL (top_features.map
    (fun feat => ("- ").toList ++ feat ++ (": ").toList ++ descFor playbook feat))

/-- Default business rules block (helpers.py lines 44-58, after `.strip()`). -/
def defaultRulesText : Str := ("Business Rules (apply consistently):\n        1) Window: last 3 full months (M-1, M-2, M-3).\n        2) Monthly ARPU = net revenue paid by the customer (top-ups, bundles, add-ons). Exclude freebies/bonuses, chargebacks, and adjustments.\n        3) Eligibility: consumption > 0 in each of the 3 months, ARPU_3M_PROM ≥ Q80.00, and no commercial blocks.\n        4) Offer mapping by ARPU_3M_PROM:\n        • Q80.00–Q110.99 → PLAN_Q115\n        • Q111.00–Q130.99 → PLAN_Q135\n        • Q131.00–Q155.99 → PLAN_Q160\n        • Q156.00–Q180.99 → PLAN_Q185\n        • ≥ Q181.00       → PLAN_Q209\n        5) Controlled upsell: if ARPU_3M_PROM is in the top 10% of its band and all three monthly ARPUs are ≥ 90% of the next band’s lower bound, offer the next band as an alternative.\n        6) Downsell: on price objection, offer the minimum of the current band’s range (do not cross down a band unless affordability constraints are explicit).\n        7) Messaging: emphasize benefits, keep price within the assigned band, and anchor value to actual spending.").toList

/-- Global prompt template, text before `{features_block}` (lines 60-66,
after `.strip()`). -/
def gpA : Str := ("You are an expert sales advisor for a prepaid telecom campaign. Maximize conversions with sustainable offers aligned to each customer's real consumption.\n\n    We use a machine learning model trained on historical behavior and engagement to estimate the probability of accepting an offer (sale=1). A higher score means higher likelihood if contacted.\n\n    Most influential features overall (by mean absolute impact):\n    ").toList

/-- Global prompt template, text between `{features_block}` and
`{rules_text}`. -/
def gpB : Str := ("\n\n    ").toList

/-- Global prompt template, fixed policy footer after `{rules_text}`
(lines 70-75). -/
def gpC : Str := ("\n\n    Policy:\n        - Do NOT reveal internal model weights or math.\n    - Do NOT invent personal/sensitive attributes beyond provided data.\n    - Keep tone helpful, respectful, and value-focused.\n     - You may explain drivers in plain language, but never mention “model”, “probability”, or “SHAP” in the final agent script.").toList

/-- Assembled global prompt f-string (helpers.py lines 60-75, after
`.strip()`). -/
def globalPrompt (features_block rules_text : Str) : Str :=
  gpA ++ features_block ++ gpB ++ rules_text ++ gpC

/-- `build_global_context` (helpers.py lines 4-77). -/
def build_global_context (df : List (List Driver))
    (feature_playbook : Option (List (Str × Str))) (top_n : ℕ)
    (rules_text : Option Str) : Except Str Str :=
  match rank df top_n with
  | Except.error e => Except.error e
  | Except.ok top_features =>
      Except.ok (globalPrompt (featuresBlock top_features feature_playbook)
        (rules_text.getD defaultRulesText))

/-- Description used by `_build_feature_points` (line 97):
`feature_playbook.get(feature, "No description available.") if
feature_playbook else ""` — an absent or empty (falsy) playbook yields the
empty string, not the default. -/
def fpDescription (playbook : Option (List (Str × Str))) (feat : Str) : Str :=
  match playbook with
  | some pb => if pb.isEmpty then [] else (lookupPB pb feat).getD noDescription
  | none => []

/-- `_build_feature_points` (helpers.py lines 80-100): stable descending sort
by absolute impact (Python `sorted` with `reverse=True` keeps ties in original
order), truncation to five, enumeration from 1. -/
def build_feature_points (driver_list : List Driver)
    (playbook : Option (List (Str × Str))) : Str :=
  let sorted_drivers :=
    List.insertionSort (fun a b : Driver => |b.impact| ≤ |a.impact|) driver_list
  joinNL ((List.enumFrom 1 (sorted_drivers.take 5)).map
    (fun p => natStr p.1 ++ (") ").toList ++ p.2.feature ++ (": ").toList
      ++ fpDescription playbook p.2.feature))

/-- A pandas row as consumed by `build_customer_prompt`: `attrs` holds the
rendered context attributes, `proba` the numeric `'proba'` entry (modelled as
a separate field because it is the only entry used numerically). -/
structure Row where
  attrs : List (Str × Str)
  proba : Option ℚ

/-- The loop of helpers.py lines 130-134: one `col = value` line per requested
column present in the row; absent columns are skipped. -/
def contextLines (row : Row) : List Str → List Str
  | [] => []
  | c :: cs =>
      match lookupPB row.attrs c with
      | some v => (c ++ (" = ").toList ++ v) :: contextLines row cs
      | none => contextLines row cs

/-- helpers.py line 135. -/
def contextBlock (row : Row) (extra_context_cols : Option (List Str)) : Str :=
  let lines :=
    match extra_context_cols with
    | some cs => contextLines row cs
    | none => []
  if lines.isEmpty then ("No additional context.").toList else joinNL lines

/-- `row.get('proba', float('nan'))` formatted with `.2%` (line 143); when the
key is missing the NaN default formats as `nan%`. -/
def probaStr (row : Row) : Str :=
  match row.proba with
  | some q => pct2 q
  | none => ("nan%").toList

/-- helpers.py line 138: `row.get(name_field) if name_field and name_field in
row else "Customer"`; an empty `name_field` is falsy in Python. -/
def nameValue (row : Row) (name_field : Option Str) : Str :=
  match name_field with
  | some f =>
      if f = [] then ("Customer").toList
      else
        match lookupPB row.attrs f with
        | some v => v
        | none => ("Customer").toList
  | none => ("Customer").toList

/-- One driver line of helpers.py lines 123-126:
`- {feature}: value={value}, impact={impact:+.3f}`. -/
def driverLine (d : Driver) : Str :=
  ("- ").toList ++ d.feature ++ (": value=").toList ++ d.value
    ++ (", impact=").toList ++ fmt3signed d.impact

/-- `driver_block` (helpers.py line 127): driver lines joined by newlines, in
the supplied order. -/
def driverBlock (driver_list : List Driver) : Str :=
  joinNL (driver_list.map driverLine)

/-- Customer prompt template, text before the probability (line 141 onward,
after `.strip()`). -/
def cpA : Str := ("[Customer Context]\n    - Acceptance likelihood (score): ").toList

/-- Customer prompt template, text between the probability and
`{context_block}`. -/
def cpB : Str := ("\n    - Attributes:\n    ").toList

/-- Customer prompt template, text between `{context_block}` and
`{driver_block}`. -/
def cpC : Str := ("\n\n    - Top influencing factors for this specific customer:\n    ").toList

/-- Customer prompt template: opening of the fixed task-instruction text
after `{driver_block}`. -/
def cpD1 : Str := ("\n\n    [Task]").toList

/-- Customer prompt template: remainder of the fixed task-instruction text
between `{driver_block}` and `{name_value}` (lines 150-189). -/
def cpD2 : Str := ("\n    Analyze these top 5 features from highest to lowest impact, using ONLY their values and impacts:\n\n    1) Feature Analysis (Most Impactful):\n       - Feature Context: Use the playbook description to understand what this raw metric means\n       - Current Value: Interpret the specific value provided\n       - Impact Direction: Consider if the impact is positive/negative for conversion\n       - Action Insight: Determine specific actions based on this feature's influence\n\n    2) Secondary Pattern:\n       - Feature Context: Reference the playbook meaning for this raw metric\n       - Value Analysis: Evaluate the concrete measurement provided\n       - Impact Interpretation: Understand how this affects customer decision\n       - Usage Pattern: Extract behavioral insights from this data point\n\n    3) Supporting Evidence:\n       - Feature Context: Apply the playbook definition\n       - Data Point Analysis: Break down what the value indicates\n       - Impact Assessment: Connect impact direction to customer behavior\n       - Pattern Recognition: Identify relevant trends from this metric\n\n    4) Behavioral Marker:\n       - Feature Context: Consider the playbook explanation\n       - Value Significance: Analyze what this measurement reveals\n       - Impact Contribution: How this shapes customer response\n       - Behavioral Insight: Extract actionable understanding\n\n    5) Final Indicator:\n       - Feature Context: Use the playbook to frame this metric\n       - Value Review: What does this specific measurement tell us\n       - Impact Role: How this influences overall likelihood\n       - Opportunity Signal: Identify potential based on this data\n\n    Then provide a data-driven synthesis:\n    - Evidence Summary: Combine insights from ALL 5 features, with their specific values\n    - Value Connection: Link each feature's impact to concrete benefits\n    - Action Strategy: Propose steps based on the analyzed feature set\n\n    [Output Format]\n    Customer Analysis for ").toList

/-- Customer prompt template, fixed task-instruction text between
`{driver_block}` and `{name_value}` (lines 150-189). -/
def cpD : Str := cpD1 ++ cpD2

/-- Customer prompt template, fixed output-format text after `{name_value}`
(lines 189-205, after `.strip()`). -/
def cpE : Str := (":\n\n    Feature Impact Summary:\n    1. Primary Driver: [Feature Name] Value: [Raw Metric] | Key Insight: [Based on Playbook]\n\n    2. Secondary Driver: [Feature Name] |Value: [Raw Metric] | Key Insight: [Based on Playbook]\n\n    3. Tertiary Driver: [Feature Name] | Value: [Raw Metric] | Key Insight: [Based on Playbook]\n\n    4. Fourth Driver: [Feature Name] | Value: [Raw Metric] | Key Insight: [Based on Playbook]\n\n    5. Fifth Driver: [Feature Name] | Value: [Raw Metric] | Key Insight: [Based on Playbook]\n\n    Evidence-Based Summary:\n    • Patterns: [Key findings from top 3 features]\n    • Profile: [Customer behavior based on values]\n    • Actions: [Data-supported recommendations]").toList

/-- `build_customer_prompt` (helpers.py lines 102-208).  The
`feature_playbook` parameter is accepted but unused, mirroring the source. -/
def build_customer_prompt (row : Row) (driver_list : List Driver)
    (extra_context_cols : Option (List Str)) (name_field : Option Str)
    (feature_playbook : Option (List (Str × Str))) : Str :=
  cpA ++ probaStr row ++ cpB ++ contextBlock row extra_context_cols
    ++ cpC ++ driverBlock driver_list ++ cpD ++ nameValue row name_field ++ cpE

instance {ε α : Type} [DecidableEq ε] [DecidableEq α] : DecidableEq (Except ε α) := fun a b =>
  match a, b with
  | Except.error e, Except.error f =>
      if h : e = f then Decidable.isTrue (by rw [h])
      else Decidable.isFalse (by intro hh; cases hh; exact h rfl)
  | Except.ok x, Except.ok y =>
      if h : x = y then Decidable.isTrue (by rw [h])
      else Decidable.isFalse (by intro hh; cases hh; exact h rfl)
  | Except.error _, Except.ok _ => Decidable.isFalse (by intro hh; cases hh)
  | Except.ok _, Except.error _ => Decidable.isFalse (by intro hh; cases hh)

unseal Rat.add Rat.mul Rat.inv Rat.sub Rat.ofScientific

/-! Basic properties of the code-point lexicographic order on strings. -/

theorem charToNat_inj {a b : Char} (h : a.toNat = b.toNat) : a = b :=
  Char.eq_of_val_eq (UInt32.toNat.inj h)

theorem strLe_total (a : Str) : ∀ b : Str, strLe a b ∨ strLe b a := by
  induction a with
  | nil => intro b; left; rfl
  | cons x xs ih =>
    intro b
    cases b with
    | nil => right; rfl
    | cons y ys =>
      simp only [strLe, strLeB]
      rcases Nat.lt_trichotomy x.toNat y.toNat with h | h | h
      · left; rw [if_pos h]
      · have h1 : ¬ x.toNat < y.toNat := by omega
        have h2 : ¬ y.toNat < x.toNat := by omega
        rw [if_neg h1, if_neg h2, if_neg h2, if_neg h1]
        exact ih ys
      · right; rw [if_pos h]

theorem strLe_trans : ∀ {a b c : Str}, strLe a b → strLe b c → strLe a c := by
  intro a
  induction a with
  | nil => intro b c _ _; rfl
  | cons x xs ih =>
    intro b c hab hbc
    cases b with
    | nil => exact absurd hab (by simp [strLe, strLeB])
    | cons y ys =>
      cases c with
      | nil => exact absurd hbc (by simp [strLe, strLeB])
      | cons z zs =>
        simp only [strLe, strLeB] at hab hbc ⊢
        by_cases h1 : x.toNat < y.toNat
        · by_cases h2 : y.toNat < z.toNat
          · rw [if_pos (Nat.lt_trans h1 h2)]
          · by_cases h3 : z.toNat < y.toNat
            · rw [if_neg h2, if_pos h3] at hbc; exact Bool.noConfusion hbc
            · have hxz : x.toNat < z.toNat := by omega
              rw [if_pos hxz]
        · by_cases h4 : y.toNat < x.toNat
          · rw [if_neg h1, if_pos h4] at hab; exact Bool.noConfusion hab
          · have hxy : x.toNat = y.toNat := by omega
            by_cases h2 : y.toNat < z.toNat
            · have hxz : x.toNat < z.toNat := by omega
              rw [if_pos hxz]
            · by_cases h3 : z.toNat < y.toNat
              · rw [if_neg h2, if_pos h3] at hbc; exact Bool.noConfusion hbc
              · have e1 : ¬ x.toNat < z.toNat := by omega
                have e2 : ¬ z.toNat < x.toNat := by omega
                rw [if_neg h1, if_neg h4] at hab
                rw [if_neg h2, if_neg h3] at hbc
                rw [if_neg e1, if_neg e2]
                exact ih hab hbc

theorem strLe_antisymm : ∀ {a b : Str}, strLe a b → strLe b a → a = b := by
  intro a
  induction a with
  | nil =>
    intro b _ hba
    cases b with
    | nil => rfl
    | cons y ys => exact absurd hba (by simp [strLe, strLeB])
  | cons x xs ih =>
    intro b hab hba
    cases b with
    | nil => exact absurd hab (by simp [strLe, strLeB])
    | cons y ys =>
      simp only [strLe, strLeB] at hab hba
      by_cases h1 : x.toNat < y.toNat
      · have h2 : ¬ y.toNat < x.toNat := by omega
        rw [if_neg h2, if_pos h1] at hba; exact Bool.noConfusion hba
      · by_cases h2 : y.toNat < x.toNat
        · rw [if_neg h1, if_pos h2] at hab; exact Bool.noConfusion hab
        · have hxy : x.toNat = y.toNat := by omega
          rw [if_neg h1, if_neg h2] at hab
          rw [if_neg h2, if_neg h1] at hba
          cases charToNat_inj hxy
          cases ih hab hba
          rfl

instance : IsTotal Str strLe := ⟨strLe_total⟩

instance : IsTrans Str strLe := ⟨fun _ _ _ => strLe_trans⟩

instance : IsAntisymm Str strLe := ⟨fun _ _ => strLe_antisymm⟩

/-! Stability of Mathlib's insertion sort: sorting a `Pairwise R` input with a
total transitive relation `r` yields a list that is sorted by `r` and keeps
`R` between tied elements.  This is the property that lets us read off the
tie-break order of the descending pandas sort. -/

theorem orderedInsert_pairwise_stable {α : Type} (r : α → α → Prop) [DecidableRel r]
    (R : α → α → Prop)
    (htot : ∀ a b, r a b ∨ r b a) (htr : ∀ {a b c}, r a b → r b c → r a c) (a : α) :
    ∀ l : List α, l.Pairwise (fun x y => r x y ∧ (r y x → R x y)) →
      (∀ b ∈ l, R a b) →
      (List.orderedInsert r a l).Pairwise (fun x y => r x y ∧ (r y x → R x y)) := by
  intro l
  induction l with
  | nil => intro _ _; simp
  | cons b bs ih =>
    intro hl ha
    rcases List.pairwise_cons.mp hl with ⟨hb, hbs⟩
    rw [List.orderedInsert]
    by_cases hab : r a b
    · rw [if_pos hab]
      refine List.pairwise_cons.mpr ⟨?_, hl⟩
      intro c hc
      rcases List.mem_cons.mp hc with rfl | hc
      · exact ⟨hab, fun _ => ha c (List.mem_cons_self c bs)⟩
      · exact ⟨htr hab (hb c hc).1, fun _ => ha c (List.mem_cons_of_mem b hc)⟩
    · rw [if_neg hab]
      refine List.pairwise_cons.mpr
        ⟨?_, ih hbs (fun x hx => ha x (List.mem_cons_of_mem b hx))⟩
      intro c hc
      rcases (List.mem_orderedInsert r).mp hc with rfl | hc
      · rcases htot c b with h | h
        · exact absurd h hab
        · exact ⟨h, fun hbc => absurd hbc hab⟩
      · exact hb c hc

theorem insertionSort_pairwise_stable {α : Type} (r : α → α → Prop) [DecidableRel r]
    (R : α → α → Prop)
    (htot : ∀ a b, r a b ∨ r b a) (htr : ∀ {a b c}, r a b → r b c → r a c) :
    ∀ l : List α, l.Pairwise R →
      (List.insertionSort r l).Pairwise (fun x y => r x y ∧ (r y x → R x y)) := by
  intro l
  induction l with
  | nil => intro _; simp
  | cons a as ih =>
    intro hl
    rcases List.pairwise_cons.mp hl with ⟨ha, has⟩
    rw [List.insertionSort]
    exact orderedInsert_pairwise_stable r R htot htr a _ (ih has)
      (fun b hb => ha b ((List.mem_insertionSort r).mp hb))

/-! Properties of the decimal rendering helpers. -/

theorem digitChar_isDigit (d : ℕ) (h : d < 10) : (Char.ofNat (48 + d)).isDigit = true := by
  interval_cases d <;> decide

theorem natStrAux_zero (fuel : ℕ) : natStrAux fuel 0 = [] := by
  cases fuel <;> rfl

theorem natStrAux_digits : ∀ fuel n : ℕ, ∀ c ∈ natStrAux fuel n, c.isDigit = true := by
  intro fuel
  induction fuel with
  | zero => intro n c hc; simp [natStrAux] at hc
  | succ f ih =>
    intro n c hc
    cases n with
    | zero => simp [natStrAux] at hc
    | succ m =>
      rw [natStrAux] at hc
      rcases List.mem_append.mp hc with h | h
      · exact ih _ c h
      · rw [List.mem_singleton] at h
        subst h
        exact digitChar_isDigit _ (Nat.mod_lt _ (by omega))

theorem natStrAux_ne_nil (fuel n : ℕ) (hf : 0 < fuel) (hn : 0 < n) :
    natStrAux fuel n ≠ [] := by
  cases fuel with
  | zero => omega
  | succ f =>
    cases n with
    | zero => omega
    | succ m => rw [natStrAux]; simp

theorem natStrAux_small (fuel m : ℕ) (hf : 0 < fuel) (h1 : 0 < m) (h2 : m < 10) :
    natStrAux fuel m = [Char.ofNat (48 + m)] := by
  cases fuel with
  | zero => omega
  | succ f =>
    cases m with
    | zero => omega
    | succ k =>
      rw [natStrAux]
      have e1 : (k + 1) / 10 = 0 := Nat.div_eq_of_lt h2
      have e2 : (k + 1) % 10 = k + 1 := Nat.mod_eq_of_lt h2
      rw [e1, e2, natStrAux_zero]
      rfl

theorem natStr_digits (n : ℕ) : ∀ c ∈ natStr n, c.isDigit = true := by
  intro c hc
  rw [natStr] at hc
  by_cases h : n = 0
  · rw [if_pos h, List.mem_singleton] at hc; subst hc; decide
  · rw [if_neg h] at hc; exact natStrAux_digits n n c hc

theorem natStr_ne_nil (n : ℕ) : natStr n ≠ [] := by
  rw [natStr]
  by_cases h : n = 0
  · rw [if_pos h]; simp
  · rw [if_neg h]; exact natStrAux_ne_nil n n (by omega) (by omega)

theorem pad2_eq (k : ℕ) (hk : k < 100) : ∃ d1 d2 : Char,
    pad2 k = [d1, d2] ∧ d1.isDigit = true ∧ d2.isDigit = true := by
  rw [pad2]
  by_cases h : k < 10
  · rw [if_pos h]
    by_cases h0 : k = 0
    · subst h0; exact ⟨'0', '0', rfl, rfl, rfl⟩
    · rw [natStr, if_neg h0, natStrAux_small k k (by omega) (by omega) h]
      exact ⟨'0', Char.ofNat (48 + k), rfl, rfl, digitChar_isDigit k h⟩
  · rw [if_neg h]
    have hk0 : k ≠ 0 := by omega
    rw [natStr, if_neg hk0]
    cases k with
    | zero => omega
    | succ m =>
      rw [natStrAux]
      have hfm : 0 < m := by omega
      have h10 : 0 < (m + 1) / 10 := by omega
      have hlt : (m + 1) / 10 < 10 := by omega
      rw [natStrAux_small m ((m + 1) / 10) hfm h10 hlt]
      exact ⟨Char.ofNat (48 + (m + 1) / 10), Char.ofNat (48 + (m + 1) % 10), rfl,
        digitChar_isDigit _ hlt, digitChar_isDigit _ (Nat.mod_lt _ (by omega))⟩

theorem pct2_pattern (q : ℚ) (hq : 0 ≤ q) : ∃ (a : Str) (d1 d2 : Char),
    pct2 q = a ++ '.' :: d1 :: d2 :: ['%'] ∧ a ≠ [] ∧
      (∀ c ∈ a, c.isDigit = true) ∧ d1.isDigit = true ∧ d2.isDigit = true := by
  rw [pct2]
  have hneg : ¬ q < 0 := not_lt.mpr hq
  rw [if_neg hneg]
  obtain ⟨d1, d2, hp, h1, h2⟩ :=
    pad2_eq ((rhe (|q| * 10000)).toNat % 100) (Nat.mod_lt _ (by omega))
  refine ⟨natStr ((rhe (|q| * 10000)).toNat / 100), d1, d2, ?_,
    natStr_ne_nil _, natStr_digits _, h1, h2⟩
  rw [hp, List.append_assoc]
  rfl

/-! Claim theorems. -/

/-- C1: the ranking step of `build_global_context` flattens all driver
records, groups them by feature identifier, averages the absolute impact per
group, orders the groups by that mean descending and truncates to `top_n`
(this is the content of `rank`); consequently, whenever the ranking step
succeeds, the ranked feature list has length at most `top_n` and at most the
number of distinct feature identifiers in the batch. -/
theorem C1_rank_length_bounds (batch : List (List Driver)) (top_n : ℕ)
    (htop : 1 ≤ top_n) (l : List Str)
    (hok : rank batch top_n = Except.ok l) :
    l.length ≤ top_n ∧
      l.length ≤ (batch.flatten.map Driver.feature).dedup.length := by
  rw [rank] at hok
  by_cases he : batch.flatten.isEmpty
  · rw [if_pos he] at hok; exact Except.noConfusion hok
  · rw [if_neg he] at hok
    simp only [Except.ok.injEq] at hok
    subst hok
    have hlen : (rankCore batch.flatten top_n).length
        = min top_n (batch.flatten.map Driver.feature).dedup.length := by
      simp [rankCore, groupKeys, List.length_take, List.length_insertionSort]
    rw [hlen]
    exact ⟨min_le_left _ _, min_le_right _ _⟩

/-- Witness for C1 at a concrete one-driver batch. -/
theorem C1_witness :
    ([("a").toList] : List Str).length ≤ 1
  ∧ ([("a").toList] : List Str).length
      ≤ (([[⟨("a").toList, ("1").toList, 1⟩]] :
            List (List Driver)).flatten.map Driver.feature).dedup.length :=
  C1_rank_length_bounds [[⟨("a").toList, ("1").toList, 1⟩]] 1 (by decide)
    [("a").toList] (by decide)

/-- C3 (code bug in the source): on an empty batch — no customer records, or
customer records whose driver lists are all empty — `build_global_context`
does not produce an empty ranking and empty feature block; the pandas
pipeline raises `KeyError` because the exploded, NaN-dropped series is empty
and its `.apply(pd.Series)` image carries no `feature` label.  The embedding
returns the corresponding `Except.error` on the claimed inputs. -/
theorem C3_empty_batch_raises :
    rank ([] : List (List Driver)) 10 = Except.error (("KeyError: feature").toList)
  ∧ rank [([] : List Driver)] 10 = Except.error (("KeyError: feature").toList)
  ∧ build_global_context [([] : List Driver)] none 10 none
      = Except.error (("KeyError: feature").toList) :=
  ⟨rfl, rfl, rfl⟩

/-- C9: the ranking — and with it the whole global prompt — is invariant
under any permutation of the customer records within the batch. -/
theorem C9_rank_perm_invariant (batch₁ batch₂ : List (List Driver)) (top_n : ℕ)
    (playbook : Option (List (Str × Str))) (rules : Option Str)
    (hp : batch₁.Perm batch₂) :
    rank batch₁ top_n = rank batch₂ top_n ∧
      build_global_context batch₁ playbook top_n rules
        = build_global_context batch₂ playbook top_n rules := by
  have hflat : batch₁.flatten.Perm batch₂.flatten := hp.flatten
  have hmean : meanAbsImpact batch₁.flatten = meanAbsImpact batch₂.flatten := by
    funext f
    have hfil := hflat.filter (fun d => decide (d.feature = f))
    have hmap := hfil.map (fun d => |d.impact|)
    simp only [meanAbsImpact]
    rw [hmap.sum_eq, hmap.length_eq]
  have hperm2 : (groupKeys batch₁.flatten).Perm (groupKeys batch₂.flatten) := by
    simp only [groupKeys]
    exact ((List.perm_insertionSort strLe _).trans
      ((hflat.map Driver.feature).dedup)).trans
      (List.perm_insertionSort strLe _).symm
  have hsort1 : (groupKeys batch₁.flatten).Sorted strLe :=
    List.sorted_insertionSort strLe _
  have hsort2 : (groupKeys batch₂.flatten).Sorted strLe :=
    List.sorted_insertionSort strLe _
  have hkeys : groupKeys batch₁.flatten = groupKeys batch₂.flatten :=
    List.eq_of_perm_of_sorted hperm2 hsort1 hsort2
  have hcore : rankCore batch₁.flatten top_n = rankCore batch₂.flatten top_n := by
    rw [rankCore, rankCore, hmean, hkeys]
  have hrank : rank batch₁ top_n = rank batch₂ top_n := by
    rw [rank, rank]
    by_cases h : batch₁.flatten = []
    · have h2 : batch₂.flatten = [] := by
        rw [h] at hflat; exact hflat.symm.eq_nil
      rw [h, h2]
    · have h2 : batch₂.flatten ≠ [] := by
        intro hc; rw [hc] at hflat; exact h hflat.eq_nil
      rw [List.isEmpty_eq_false.mpr h, List.isEmpty_eq_false.mpr h2, hcore]
  exact ⟨hrank, by rw [build_global_context, build_global_context, hrank]⟩

/-- Witness for C9 on a two-customer batch and its transposition. -/
theorem C9_witness :
    rank [[⟨("a").toList, ("1").toList, 1⟩], [⟨("b").toList, ("2").toList, 2⟩]] 10
      = rank [[⟨("b").toList, ("2").toList, 2⟩], [⟨("a").toList, ("1").toList, 1⟩]] 10
  ∧ build_global_context
      [[⟨("a").toList, ("1").toList, 1⟩], [⟨("b").toList, ("2").toList, 2⟩]] none 10 none
    = build_global_context
      [[⟨("b").toList, ("2").toList, 2⟩], [⟨("a").toList, ("1").toList, 1⟩]] none 10 none :=
  C9_rank_perm_invariant
    [[⟨("a").toList, ("1").toList, 1⟩], [⟨("b").toList, ("2").toList, 2⟩]]
    [[⟨("b").toList, ("2").toList, 2⟩], [⟨("a").toList, ("1").toList, 1⟩]]
    10 none none (by decide)

/-- C2 counterexample: a batch in which feature `b` is encountered first in
the flattened batch and both features have equal mean absolute impact, yet
the ranking lists `a` first — the groupby sorts the feature groups
alphabetically before the (stable) descending value sort, so the tie is not
broken by first-seen order. -/
theorem C2_counterexample :
    rank [[⟨("b").toList, ("1").toList, 1⟩], [⟨("a").toList, ("1").toList, 1⟩]] 2
      = Except.ok [("a").toList, ("b").toList]
  ∧ meanAbsImpact
      ([[⟨("b").toList, ("1").toList, 1⟩],
        [⟨("a").toList, ("1").toList, 1⟩]] : List (List Driver)).flatten (("a").toList)
    = meanAbsImpact
      ([[⟨("b").toList, ("1").toList, 1⟩],
        [⟨("a").toList, ("1").toList, 1⟩]] : List (List Driver)).flatten (("b").toList)
  ∧ rank [[⟨("b").toList, ("1").toList, 1⟩], [⟨("a").toList, ("1").toList, 1⟩]] 2
      ≠ Except.ok [("b").toList, ("a").toList] :=
  ⟨by decide, by decide, by decide⟩

/-- C2 (amended): when two ranked features have equal mean absolute impact,
the tie is broken by ascending code-point lexicographic order of the feature
identifier — the groupby orders the groups ascending by identifier and the
stable descending value sort keeps that order among equal means — not by
first-seen order in the flattened batch.  In general the ranked list is
pairwise ordered by descending mean, with the lexicographically smaller
identifier first among equal means. -/
theorem C2_tie_break_lex_order (batch : List (List Driver)) (top_n : ℕ)
    (l : List Str) (hok : rank batch top_n = Except.ok l) :
    l.Pairwise (fun a b =>
      meanAbsImpact batch.flatten b ≤ meanAbsImpact batch.flatten a ∧
        (meanAbsImpact batch.flatten a = meanAbsImpact batch.flatten b →
          (strLe a b ∧ a ≠ b))) := by
  rw [rank] at hok
  by_cases he : batch.flatten.isEmpty
  · rw [if_pos he] at hok; exact Except.noConfusion hok
  · rw [if_neg he] at hok
    simp only [Except.ok.injEq] at hok
    subst hok
    have hnd : (groupKeys batch.flatten).Nodup :=
      (List.perm_insertionSort strLe _).symm.nodup (List.nodup_dedup _)
    have hsorted : (groupKeys batch.flatten).Sorted strLe :=
      List.sorted_insertionSort strLe _
    have hR : (groupKeys batch.flatten).Pairwise
        (fun a b => strLe a b ∧ a ≠ b) := hsorted.and hnd
    have hstable := insertionSort_pairwise_stable
      (fun a b => meanAbsImpact batch.flatten b ≤ meanAbsImpact batch.flatten a)
      (fun a b => strLe a b ∧ a ≠ b)
      (fun a b => le_total _ _) (fun hab hbc => le_trans hbc hab)
      (groupKeys batch.flatten) hR
    have htake := hstable.sublist (List.take_sublist top_n _)
    refine htake.imp ?_
    rintro a b ⟨h1, h2⟩
    exact ⟨h1, fun heq => h2 (le_of_eq heq)⟩

/-- Witness for C2 at the counterexample batch. -/
theorem C2_witness :
    ([("a").toList, ("b").toList] : List Str).Pairwise (fun a b =>
      meanAbsImpact
          ([[⟨("b").toList, ("1").toList, 1⟩],
            [⟨("a").toList, ("1").toList, 1⟩]] : List (List Driver)).flatten b
        ≤ meanAbsImpact
          ([[⟨("b").toList, ("1").toList, 1⟩],
            [⟨("a").toList, ("1").toList, 1⟩]] : List (List Driver)).flatten a ∧
        (meanAbsImpact
            ([[⟨("b").toList, ("1").toList, 1⟩],
              [⟨("a").toList, ("1").toList, 1⟩]] : List (List Driver)).flatten a
          = meanAbsImpact
            ([[⟨("b").toList, ("1").toList, 1⟩],
              [⟨("a").toList, ("1").toList, 1⟩]] : List (List Driver)).flatten b →
          (strLe a b ∧ a ≠ b))) :=
  C2_tie_break_lex_order
    [[⟨("b").toList, ("1").toList, 1⟩], [⟨("a").toList, ("1").toList, 1⟩]] 2
    [("a").toList, ("b").toList] (by decide)

/-- C4 counterexample: at a concrete input the global prompt does contain the
literal substring "model weights" — it occurs in the fixed policy footer
("Do NOT reveal internal model weights or math."), so the claim that the
prompt never contains it is false. -/
theorem C4_counterexample :
    build_global_context [[⟨("arpu").toList, ("x").toList, 1⟩]] none 10 none
      = Except.ok (globalPrompt (featuresBlock [("arpu").toList] none) defaultRulesText)
  ∧ ("model weights").toList <:+:
      globalPrompt (featuresBlock [("arpu").toList] none) defaultRulesText := by
  constructor
  · rfl
  · have h1 : ("model weights").toList <:+: gpC := by decide
    have h2 : gpC <:+
        globalPrompt (featuresBlock [("arpu").toList] none) defaultRulesText := by
      refine ⟨gpA ++ featuresBlock [("arpu").toList] none ++ gpB ++ defaultRulesText, ?_⟩
      simp [globalPrompt, List.append_assoc]
    exact h1.trans h2.isInfix

/-- C4 (amended): every successfully built global prompt contains the literal
substring "model weights" — it occurs in the fixed policy footer instructing
the model not to reveal them. -/
theorem C4_policy_footer_contains_model_weights (df : List (List Driver))
    (pb : Option (List (Str × Str))) (top_n : ℕ) (rules : Option Str) (p : Str)
    (hok : build_global_context df pb top_n rules = Except.ok p) :
    ("model weights").toList <:+: p := by
  rw [build_global_context] at hok
  cases hr : rank df top_n with
  | error e => rw [hr] at hok; exact Except.noConfusion hok
  | ok tf =>
      rw [hr] at hok
      simp only [Except.ok.injEq] at hok
      subst hok
      have h1 : ("model weights").toList <:+: gpC := by decide
      have h2 : gpC <:+
          globalPrompt (featuresBlock tf pb) (rules.getD defaultRulesText) := by
        refine ⟨gpA ++ featuresBlock tf pb ++ gpB ++ rules.getD defaultRulesText, ?_⟩
        simp [globalPrompt, List.append_assoc]
      exact h1.trans h2.isInfix

/-- Witness for the amended C4 at a concrete batch. -/
theorem C4_witness :
    ("model weights").toList <:+:
      globalPrompt (featuresBlock [("arpu").toList] none) defaultRulesText :=
  C4_policy_footer_contains_model_weights [[⟨("arpu").toList, ("x").toList, 1⟩]]
    none 10 none
    (globalPrompt (featuresBlock [("arpu").toList] none) defaultRulesText) rfl

/-- C5 counterexample: with no playbook supplied, the per-customer feature
points do not render the default description — `_build_feature_points`
renders an empty description, and the default string does not occur at all. -/
theorem C5_counterexample :
    build_feature_points [⟨("arpu").toList, ("8.24").toList, 1⟩] none
      = ("1) arpu: ").toList
  ∧ ¬ (("No description available.").toList <:+:
        build_feature_points [⟨("arpu").toList, ("8.24").toList, 1⟩] none) :=
  ⟨by decide, by decide⟩

/-- C5 (amended): in the global prompt a feature absent from the playbook —
including when no playbook is supplied at all — renders the exact default
description "No description available."; in the per-customer feature points
the default renders only when a non-empty playbook is supplied but lacks the
feature, while with no playbook at all the rendered description is the empty
string. -/
theorem C5_default_description (feat val : Str) (imp : ℚ) (pbl : List (Str × Str))
    (hmiss : lookupPB pbl feat = none) :
    featuresBlock [feat] (some pbl)
      = ("- ").toList ++ feat ++ (": ").toList ++ noDescription
  ∧ featuresBlock [feat] none
      = ("- ").toList ++ feat ++ (": ").toList ++ noDescription
  ∧ (pbl ≠ [] → build_feature_points [⟨feat, val, imp⟩] (some pbl)
      = ("1) ").toList ++ feat ++ (": ").toList ++ noDescription)
  ∧ build_feature_points [⟨feat, val, imp⟩] none
      = ("1) ").toList ++ feat ++ (": ").toList := by
  have h1 : natStr 1 = [('1' : Char)] := by decide
  refine ⟨?_, ?_, ?_, ?_⟩
  · simp [featuresBlock, joinNL, descFor, hmiss, List.append_assoc]
  · simp [featuresBlock, joinNL, descFor, List.append_assoc]
  · intro hne
    have hpb : pbl.isEmpty = false := List.isEmpty_eq_false.mpr hne
    simp [build_feature_points, List.insertionSort, List.orderedInsert,
      List.enumFrom, fpDescription, hpb, hmiss, joinNL, h1, List.append_assoc]
  · simp [build_feature_points, List.insertionSort, List.orderedInsert,
      List.enumFrom, fpDescription, joinNL, h1, List.append_assoc]

/-- Witness for the amended C5 at a concrete feature and playbook. -/
theorem C5_witness :
    featuresBlock [("arpu").toList] (some [(("other").toList, ("d").toList)])
      = ("- ").toList ++ ("arpu").toList ++ (": ").toList ++ noDescription
  ∧ featuresBlock [("arpu").toList] none
      = ("- ").toList ++ ("arpu").toList ++ (": ").toList ++ noDescription
  ∧ ([(("other").toList, ("d").toList)] ≠ ([] : List (Str × Str)) →
      build_feature_points [⟨("arpu").toList, ("8.24").toList, 1⟩]
          (some [(("other").toList, ("d").toList)])
        = ("1) ").toList ++ ("arpu").toList ++ (": ").toList ++ noDescription)
  ∧ build_feature_points [⟨("arpu").toList, ("8.24").toList, 1⟩] none
      = ("1) ").toList ++ ("arpu").toList ++ (": ").toList :=
  C5_default_description ("arpu").toList ("8.24").toList 1
    [(("other").toList, ("d").toList)] (by decide)

/-- C6: `build_customer_prompt` renders each driver record as the line
"- {feature}: value={value}, impact={impact:+.3f}" (impact signed, three
decimals) and emits the lines in exactly the supplied order, without
re-sorting: the newline-join of the rendered lines occurs verbatim in the
prompt, and a concretely unsorted list keeps its supplied order. -/
theorem C6_driver_lines (row : Row) (driver_list : List Driver)
    (cols : Option (List Str)) (nf : Option Str) (pb : Option (List (Str × Str))) :
    joinNL (driver_list.map driverLine) <:+:
        build_customer_prompt row driver_list cols nf pb
  ∧ driverBlock driver_list = joinNL (driver_list.map driverLine)
  ∧ driverLine ⟨("arpu_90_days").toList, ("8.24").toList, 32/100⟩
      = ("- arpu_90_days: value=8.24, impact=+0.320").toList
  ∧ driverBlock [⟨("b").toList, ("1").toList, 1/10⟩,
        ⟨("a").toList, ("2").toList, 9/10⟩]
      = ("- b: value=1, impact=+0.100\n- a: value=2, impact=+0.900").toList := by
  refine ⟨?_, rfl, by decide, by decide⟩
  refine ⟨cpA ++ probaStr row ++ cpB ++ contextBlock row cols ++ cpC,
    cpD ++ nameValue row nf ++ cpE, ?_⟩
  simp [build_customer_prompt, driverBlock, List.append_assoc]

/-- Witness for C6 at a concrete row and driver list. -/
theorem C6_witness :
    joinNL (([⟨("b").toList, ("1").toList, 1/10⟩] : List Driver).map driverLine) <:+:
        build_customer_prompt ⟨[], none⟩ [⟨("b").toList, ("1").toList, 1/10⟩]
          none none none
  ∧ driverBlock [⟨("b").toList, ("1").toList, 1/10⟩]
      = joinNL (([⟨("b").toList, ("1").toList, 1/10⟩] : List Driver).map driverLine)
  ∧ driverLine ⟨("arpu_90_days").toList, ("8.24").toList, 32/100⟩
      = ("- arpu_90_days: value=8.24, impact=+0.320").toList
  ∧ driverBlock [⟨("b").toList, ("1").toList, 1/10⟩,
        ⟨("a").toList, ("2").toList, 9/10⟩]
      = ("- b: value=1, impact=+0.100\n- a: value=2, impact=+0.900").toList :=
  C6_driver_lines ⟨[], none⟩ [⟨("b").toList, ("1").toList, 1/10⟩] none none none

/-- C7: the acceptance probability is rendered as a percentage with two
decimals matching the pattern of digits, a dot, two digits and a percent
sign; the rendering is embedded verbatim after the score label in the
customer prompt, and 0.8234 renders "82.34%". -/
theorem C7_probability_format (row : Row) (dl : List Driver)
    (cols : Option (List Str)) (nf : Option Str) (pb : Option (List (Str × Str)))
    (q : ℚ) (hq : row.proba = some q) (h0 : 0 ≤ q) :
    (("- Acceptance likelihood (score): ").toList ++ pct2 q) <:+:
        build_customer_prompt row dl cols nf pb
  ∧ (∃ (a : Str) (d1 d2 : Char),
      pct2 q = a ++ '.' :: d1 :: d2 :: ['%'] ∧ a ≠ [] ∧
        (∀ c ∈ a, c.isDigit = true) ∧ d1.isDigit = true ∧ d2.isDigit = true)
  ∧ pct2 (8234/10000 : ℚ) = ("82.34%").toList := by
  refine ⟨?_, pct2_pattern q h0, by decide⟩
  have hsplit : cpA = ("[Customer Context]\n    ").toList
      ++ ("- Acceptance likelihood (score): ").toList := by decide
  refine ⟨("[Customer Context]\n    ").toList,
    cpB ++ contextBlock row cols ++ cpC ++ driverBlock dl
      ++ cpD ++ nameValue row nf ++ cpE, ?_⟩
  simp [build_customer_prompt, probaStr, hq, hsplit, List.append_assoc]

/-- Witness for C7 at probability 0.8234. -/
theorem C7_witness :
    (("- Acceptance likelihood (score): ").toList ++ pct2 (8234/10000 : ℚ)) <:+:
        build_customer_prompt ⟨[], some (8234/10000 : ℚ)⟩ [] none none none
  ∧ (∃ (a : Str) (d1 d2 : Char),
      pct2 (8234/10000 : ℚ) = a ++ '.' :: d1 :: d2 :: ['%'] ∧ a ≠ [] ∧
        (∀ c ∈ a, c.isDigit = true) ∧ d1.isDigit = true ∧ d2.isDigit = true)
  ∧ pct2 (8234/10000 : ℚ) = ("82.34%").toList :=
  C7_probability_format ⟨[], some (8234/10000 : ℚ)⟩ [] none none none
    (8234/10000 : ℚ) rfl (by decide)

/-- C8: with contextFields supplied, a "{field} = {value}" line is emitted
exactly for the fields present on the customer record — absent fields are
silently skipped without error — and when no listed field resolves the
context block is exactly "No additional context.", which then appears
verbatim in the prompt. -/
theorem C8_context_fields (row : Row) (cols : List Str) (dl : List Driver)
    (nf : Option Str) (pb : Option (List (Str × Str))) :
    contextLines row cols
      = (cols.filter (fun c => (lookupPB row.attrs c).isSome)).map
          (fun c => c ++ (" = ").toList ++ (lookupPB row.attrs c).getD [])
  ∧ ((∀ c ∈ cols, lookupPB row.attrs c = none) →
      contextBlock row (some cols) = ("No additional context.").toList
      ∧ ("No additional context.").toList <:+:
          build_customer_prompt row dl (some cols) nf pb) := by
  constructor
  · induction cols with
    | nil => rfl
    | cons c cs ih =>
      cases hl : lookupPB row.attrs c with
      | some v => simp [contextLines, hl, ih]
      | none => simp [contextLines, hl, ih]
  · intro habs
    have hemp : ∀ cs : List Str, (∀ c ∈ cs, lookupPB row.attrs c = none) →
        contextLines row cs = [] := by
      intro cs
      induction cs with
      | nil => intro _; rfl
      | cons c cs ih =>
        intro h
        have hc := h c (List.mem_cons_self c cs)
        simp only [contextLines, hc]
        exact ih (fun x hx => h x (List.mem_cons_of_mem c hx))
    have hblock : contextBlock row (some cols)
        = ("No additional context.").toList := by
      simp [contextBlock, hemp cols habs]
    refine ⟨hblock, ?_⟩
    refine ⟨cpA ++ probaStr row ++ cpB,
      cpC ++ driverBlock dl ++ cpD ++ nameValue row nf ++ cpE, ?_⟩
    simp [build_customer_prompt, hblock, List.append_assoc]

/-- Witness for C8: a record without the requested "region" key. -/
theorem C8_witness :
    contextBlock ⟨[(("x").toList, ("1").toList)], none⟩ (some [("region").toList])
      = ("No additional context.").toList
  ∧ ("No additional context.").toList <:+:
      build_customer_prompt ⟨[(("x").toList, ("1").toList)], none⟩ []
        (some [("region").toList]) none none :=
  (C8_context_fields ⟨[(("x").toList, ("1").toList)], none⟩ [("region").toList]
    [] none none).2 (by decide)

/-- C10: for fewer than five drivers (including none) `build_customer_prompt`
neither fails nor pads — the text between the per-customer factors header and
the `[Task]` block is exactly the newline-join of one rendered line per
supplied driver — while the fixed output-format text still narrates five
ranked slots, "1. Primary Driver:" through "5. Fifth Driver:". -/
theorem C10_five_slot_template (row : Row) (dl : List Driver)
    (cols : Option (List Str)) (nf : Option Str) (pb : Option (List (Str × Str)))
    (h5 : dl.length < 5) :
    (("- Top influencing factors for this specific customer:\n    ").toList
        ++ joinNL (dl.map driverLine) ++ ("\n\n    [Task]").toList) <:+:
      build_customer_prompt row dl cols nf pb
  ∧ (dl.map driverLine).length = dl.length
  ∧ ("1. Primary Driver:").toList <:+: build_customer_prompt row dl cols nf pb
  ∧ ("5. Fifth Driver:").toList <:+: build_customer_prompt row dl cols nf pb := by
  have hcpC : cpC = ("\n\n    ").toList
      ++ ("- Top influencing factors for this specific customer:\n    ").toList := by
    decide
  have htail : cpD = ("\n\n    [Task]").toList ++ cpD2 := rfl
  have hsufE : cpE <:+ build_customer_prompt row dl cols nf pb :=
    ⟨cpA ++ probaStr row ++ cpB ++ contextBlock row cols ++ cpC ++ driverBlock dl
      ++ cpD ++ nameValue row nf, by simp [build_customer_prompt, List.append_assoc]⟩
  have hp1 : ("1. Primary Driver:").toList <:+: cpE := by decide
  have hp5 : ("5. Fifth Driver:").toList <:+: cpE := by decide
  refine ⟨?_, by simp, hp1.trans hsufE.isInfix, hp5.trans hsufE.isInfix⟩
  refine ⟨cpA ++ probaStr row ++ cpB ++ contextBlock row cols ++ ("\n\n    ").toList,
    cpD2 ++ nameValue row nf ++ cpE, ?_⟩
  rw [build_customer_prompt, hcpC, htail]
  simp [driverBlock, List.append_assoc]

/-- Witness for C10 with a two-driver list. -/
theorem C10_witness :
    (("- Top influencing factors for this specific customer:\n    ").toList
        ++ joinNL (([⟨("b").toList, ("1").toList, 1/10⟩,
              ⟨("a").toList, ("2").toList, 9/10⟩] : List Driver).map driverLine)
        ++ ("\n\n    [Task]").toList) <:+:
      build_customer_prompt ⟨[], none⟩
        [⟨("b").toList, ("1").toList, 1/10⟩, ⟨("a").toList, ("2").toList, 9/10⟩]
        none none none
  ∧ (([⟨("b").toList, ("1").toList, 1/10⟩,
        ⟨("a").toList, ("2").toList, 9/10⟩] : List Driver).map driverLine).length
      = ([⟨("b").toList, ("1").toList, 1/10⟩,
          ⟨("a").toList, ("2").toList, 9/10⟩] : List Driver).length
  ∧ ("1. Primary Driver:").toList <:+:
      build_customer_prompt ⟨[], none⟩
        [⟨("b").toList, ("1").toList, 1/10⟩, ⟨("a").toList, ("2").toList, 9/10⟩]
        none none none
  ∧ ("5. Fifth Driver:").toList <:+:
      build_customer_prompt ⟨[], none⟩
        [⟨("b").toList, ("1").toList, 1/10⟩, ⟨("a").toList, ("2").toList, 9/10⟩]
        none none none :=
  C10_five_slot_template ⟨[], none⟩
    [⟨("b").toList, ("1").toList, 1/10⟩, ⟨("a").toList, ("2").toList, 9/10⟩]
    none none none (by decide)
